import Mathlib

set_option autoImplicit false

/-!
Verification development for the `gearman` client library
(`gearman/protocol.py` and `gearman/client_handler.py`).

Byte strings (Python 2 `str` values) are modelled as `List Nat`, one
element per byte.  The binary codec (`parse_command` / `pack_command`)
and the per-connection client state machine are embedded as executable
Lean functions; fallible Python paths (`raise`, failed `assert`,
`KeyError`, `struct.error`) become `Except` error values.
-/

namespace Gearman

/-! ## Protocol constants (`gearman/protocol.py`) -/

def NULL_CHAR : Nat := 0

/-- `"\x00RES"` as bytes. -/
def MAGIC_RES_STRING : List Nat := [0, 82, 69, 83]

/-- `"\x00REQ"` as bytes. -/
def MAGIC_REQ_STRING : List Nat := [0, 82, 69, 81]

def COMMAND_HEADER_SIZE : Nat := 12

def GEARMAN_COMMAND_CAN_DO : Nat := 1
def GEARMAN_COMMAND_CANT_DO : Nat := 2
def GEARMAN_COMMAND_RESET_ABILITIES : Nat := 3
def GEARMAN_COMMAND_PRE_SLEEP : Nat := 4
def GEARMAN_COMMAND_NOOP : Nat := 6
def GEARMAN_COMMAND_SUBMIT_JOB : Nat := 7
def GEARMAN_COMMAND_JOB_CREATED : Nat := 8
def GEARMAN_COMMAND_GRAB_JOB : Nat := 9
def GEARMAN_COMMAND_NO_JOB : Nat := 10
def GEARMAN_COMMAND_JOB_ASSIGN : Nat := 11
def GEARMAN_COMMAND_WORK_STATUS : Nat := 12
def GEARMAN_COMMAND_WORK_COMPLETE : Nat := 13
def GEARMAN_COMMAND_WORK_FAIL : Nat := 14
def GEARMAN_COMMAND_GET_STATUS : Nat := 15
def GEARMAN_COMMAND_ECHO_REQ : Nat := 16
def GEARMAN_COMMAND_ECHO_RES : Nat := 17
def GEARMAN_COMMAND_SUBMIT_JOB_BG : Nat := 18
def GEARMAN_COMMAND_ERROR : Nat := 19
def GEARMAN_COMMAND_STATUS_RES : Nat := 20
def GEARMAN_COMMAND_SUBMIT_JOB_HIGH : Nat := 21
def GEARMAN_COMMAND_SET_CLIENT_ID : Nat := 22
def GEARMAN_COMMAND_CAN_DO_TIMEOUT : Nat := 23
def GEARMAN_COMMAND_ALL_YOURS : Nat := 24
def GEARMAN_COMMAND_WORK_EXCEPTION : Nat := 25
def GEARMAN_COMMAND_OPTION_REQ : Nat := 26
def GEARMAN_COMMAND_OPTION_RES : Nat := 27
def GEARMAN_COMMAND_WORK_DATA : Nat := 28
def GEARMAN_COMMAND_WORK_WARNING : Nat := 29
def GEARMAN_COMMAND_GRAB_JOB_UNIQ : Nat := 30
def GEARMAN_COMMAND_JOB_ASSIGN_UNIQ : Nat := 31
def GEARMAN_COMMAND_SUBMIT_JOB_HIGH_BG : Nat := 32
def GEARMAN_COMMAND_SUBMIT_JOB_LOW : Nat := 33
def GEARMAN_COMMAND_SUBMIT_JOB_LOW_BG : Nat := 34

/-- First-match association-list lookup; embeds Python dict access /
`dict.get` for the dictionaries this code uses. -/
def alookup {α β : Type} [DecidableEq α] : List (α × β) → α → Option β
  | [], _ => Option.none
  | e :: rest, k => if e.1 = k then some e.2 else alookup rest k

/-- The `COMMAND_PARAMS` dict as an ordered association list
(type → ordered field names), exactly as written in `protocol.py`. -/
def COMMAND_PARAMS_LIST : List (Nat × List String) :=
  [(GEARMAN_COMMAND_CAN_DO, ["func"]),
   (GEARMAN_COMMAND_CANT_DO, ["func"]),
   (GEARMAN_COMMAND_RESET_ABILITIES, []),
   (GEARMAN_COMMAND_PRE_SLEEP, []),
   (GEARMAN_COMMAND_NOOP, []),
   (GEARMAN_COMMAND_SUBMIT_JOB, ["func", "unique", "data"]),
   (GEARMAN_COMMAND_JOB_CREATED, ["handle"]),
   (GEARMAN_COMMAND_GRAB_JOB, []),
   (GEARMAN_COMMAND_NO_JOB, []),
   (GEARMAN_COMMAND_JOB_ASSIGN, ["handle", "func", "data"]),
   (GEARMAN_COMMAND_WORK_STATUS, ["handle", "numerator", "denominator"]),
   (GEARMAN_COMMAND_WORK_COMPLETE, ["handle", "data"]),
   (GEARMAN_COMMAND_WORK_FAIL, ["handle"]),
   (GEARMAN_COMMAND_GET_STATUS, ["handle"]),
   (GEARMAN_COMMAND_ECHO_REQ, ["text"]),
   (GEARMAN_COMMAND_ECHO_RES, ["text"]),
   (GEARMAN_COMMAND_SUBMIT_JOB_BG, ["func", "unique", "data"]),
   (GEARMAN_COMMAND_ERROR, ["err_code", "err_text"]),
   (GEARMAN_COMMAND_STATUS_RES, ["handle", "known", "running", "numerator", "denominator"]),
   (GEARMAN_COMMAND_SUBMIT_JOB_HIGH, ["func", "unique", "data"]),
   (GEARMAN_COMMAND_SET_CLIENT_ID, ["client_id"]),
   (GEARMAN_COMMAND_CAN_DO_TIMEOUT, ["func", "timeout"]),
   (GEARMAN_COMMAND_ALL_YOURS, []),
   (GEARMAN_COMMAND_WORK_EXCEPTION, ["handle", "data"]),
   (GEARMAN_COMMAND_OPTION_REQ, ["option_name"]),
   (GEARMAN_COMMAND_OPTION_RES, ["option_name"]),
   (GEARMAN_COMMAND_WORK_DATA, ["handle", "data"]),
   (GEARMAN_COMMAND_WORK_WARNING, ["handle", "data"]),
   (GEARMAN_COMMAND_GRAB_JOB_UNIQ, []),
   (GEARMAN_COMMAND_JOB_ASSIGN_UNIQ, ["handle", "func", "unique", "data"]),
   (GEARMAN_COMMAND_SUBMIT_JOB_HIGH_BG, ["func", "unique", "data"]),
   (GEARMAN_COMMAND_SUBMIT_JOB_LOW, ["func", "unique", "data"]),
   (GEARMAN_COMMAND_SUBMIT_JOB_LOW_BG, ["func", "unique", "data"])]

/-- `COMMAND_PARAMS.get(cmd_type, None)`. -/
def COMMAND_PARAMS (cmd_type : Nat) : Option (List String) :=
  alookup COMMAND_PARAMS_LIST cmd_type

/-! ## Byte-level helpers -/

/-- Big-endian 4-byte encoding of a 32-bit value, as produced by
`struct.pack("!I", n)`. -/
def be32 (n : Nat) : List Nat :=
  [n / 16777216 % 256, n / 65536 % 256, n / 256 % 256, n % 256]

/-- Big-endian decoding of 4 bytes, as produced by `struct.unpack("!L", s)`. -/
def beUint32 : List Nat → Nat
  | [a, b, c, d] => ((a * 256 + b) * 256 + c) * 256 + d
  | _ => 0

/-- Embeds Python `s.split(NULL_CHAR, maxsplit)`: at most `maxsplit`
splits are performed from the front of the string, each consuming the
first remaining NUL byte; the final piece is the unsplit remainder. -/
def splitNul : List Nat → Nat → List (List Nat)
  | s, 0 => [s]
  | s, m + 1 =>
    if 0 ∈ s then
      s.takeWhile (· != 0) :: splitNul (s.drop ((s.takeWhile (· != 0)).length + 1)) m
    else [s]

/-- Embeds Python `NULL_CHAR.join(items)`. -/
def nulJoin : List (List Nat) → List Nat
  | [] => []
  | [v] => v
  | v :: vs => v ++ 0 :: nulJoin vs

/-- Character class `[\w\n\r]` of `txt_command_re` (Python 2 `\w` with no
re flags: ASCII letters, digits, underscore). -/
def isTxtChar (c : Nat) : Bool :=
  (48 ≤ c && c ≤ 57) || (65 ≤ c && c ≤ 90) || (97 ≤ c && c ≤ 122) ||
    c == 95 || c == 10 || c == 13

/-- `txt_command_re.match(databuffer)` succeeds iff the anchored pattern
`[\w\n\r]+` matches, i.e. iff the first byte is in the class. -/
def txtCommandMatch : List Nat → Bool
  | [] => false
  | c :: _ => isTxtChar c

/-- Python whitespace as stripped by `str.strip()`. -/
def isPythonSpace (c : Nat) : Bool :=
  c == 32 || c == 9 || c == 10 || c == 13 || c == 11 || c == 12

/-- Embeds Python `s.strip()`. -/
def pyStrip (s : List Nat) : List Nat :=
  ((s.dropWhile isPythonSpace).reverse.dropWhile isPythonSpace).reverse

/-! ## Python values appearing as pack arguments -/

/-- The Python values `pack_command` may receive as argument values:
byte strings, integers, booleans and `None`. -/
inductive PyValue : Type
  | str (s : List Nat)
  | int (n : Int)
  | bool (b : Bool)
  | none
  deriving DecidableEq, Repr

/-- Python truthiness of a `PyValue`. -/
def pyTruthy : PyValue → Bool
  | .str s => !s.isEmpty
  | .int n => n != 0
  | .bool b => b
  | .none => false

def pyStrBytes (s : String) : List Nat := s.data.map Char.toNat

/-- Python `str(value)` on a `PyValue`. -/
def pyStr : PyValue → List Nat
  | .str s => s
  | .int n => pyStrBytes (toString n)
  | .bool b => if b then pyStrBytes "True" else pyStrBytes "False"
  | .none => pyStrBytes "None"

/-- `raw_value or ""`: a falsy value is replaced by the empty string. -/
def pyOrEmptyStr (v : PyValue) : PyValue :=
  if pyTruthy v then v else .str []

/-! ## Codec (`parse_command` / `pack_command`) -/

deriving instance DecidableEq for Except

/-- The exception outcomes of the embedded code: `ProtocolError` raised
with its three distinct messages, a failed `assert`, `KeyError`,
`struct.error`, and `InvalidClientState` from the client handler. -/
inductive GearmanError : Type
  | protocolMalformedMagic
  | protocolUnknownCommand (cmd_type : Nat)
  | protocolWrongArgCount (cmd_type : Nat)
  | assertArgumentMismatch
  | keyError
  | structError
  | invalidClientState
  deriving DecidableEq, Repr

/-- The three result shapes of `parse_command`:
`(None, None, 0)`, `(raw_server_command.strip(), databuffer, consumed)`
for an admin/text command, and `(cmd_type, cmd_args, expected_packet_size)`
for a binary command. -/
inductive ParseResult : Type
  | noData
  | adminCommand (cmd rest : List Nat) (consumed : Nat)
  | command (cmd_type : Nat) (cmd_args : List (String × List Nat)) (consumed : Nat)
  deriving DecidableEq, Repr

/-- The magic-mismatch branch of `parse_command` (lines 132-141):
taken both when fewer than 12 bytes are buffered (the unpacked `magic`
is still `None`, which never equals the expected magic string) and when
12+ bytes are buffered but the leading 4 bytes differ from the expected
magic. -/
def adminFallback (databuffer : List Nat) : Except GearmanError ParseResult :=
  if ¬ txtCommandMatch databuffer then .error .protocolMalformedMagic
  else if 10 ∈ databuffer then
    .ok (.adminCommand (pyStrip (databuffer.takeWhile (· != 10)))
          (databuffer.drop ((databuffer.takeWhile (· != 10)).length + 1))
          ((databuffer.takeWhile (· != 10)).length + 1))
  else .ok .noData

/-- Embeds `parse_command(databuffer, is_response)`. -/
def parse_command (databuffer : List Nat) (is_response : Bool) :
    Except GearmanError ParseResult :=
  if databuffer.length = 0 then .ok .noData
  else
    let expected_magic := if is_response then MAGIC_RES_STRING else MAGIC_REQ_STRING
    if COMMAND_HEADER_SIZE ≤ databuffer.length then
      let magic := databuffer.take 4
      let cmd_type := beUint32 ((databuffer.drop 4).take 4)
      let cmd_len := beUint32 ((databuffer.drop 8).take 4)
      if magic = expected_magic then
        if databuffer.length < COMMAND_HEADER_SIZE + cmd_len then .ok .noData
        else
          match COMMAND_PARAMS cmd_type with
          | Option.none => .error (.protocolUnknownCommand cmd_type)
          | Option.some cmd_params =>
            let number_of_params := cmd_params.length
            let split_arguments :=
              if 0 < number_of_params then
                splitNul ((databuffer.drop COMMAND_HEADER_SIZE).take cmd_len)
                  (number_of_params - 1)
              else []
            if split_arguments.length ≠ number_of_params then
              .error (.protocolWrongArgCount cmd_type)
            else
              .ok (.command cmd_type (cmd_params.zip split_arguments)
                    (COMMAND_HEADER_SIZE + cmd_len))
      else adminFallback databuffer
    else adminFallback databuffer

/-- `cmd_args[param]` looked up for each expected field in order, each
value passed through `raw_value or ""` and `str(...)`; `Option.none`
embeds the (unreachable after the assert) `KeyError`. -/
def packItems (cmd_args : List (String × PyValue)) : List String → Option (List (List Nat))
  | [] => some []
  | p :: ps =>
    match alookup cmd_args p, packItems cmd_args ps with
    | some v, some rest => some (pyStr (pyOrEmptyStr v) :: rest)
    | _, _ => Option.none

/-- Embeds `pack_command(cmd_type, cmd_args, is_response)`.  The
`struct.error` branch models `struct.pack("!I", ...)` rejecting a
payload length that does not fit 32 bits (every `cmd_type` in the table
fits trivially). -/
def pack_command (cmd_type : Nat) (cmd_args : List (String × PyValue))
    (is_response : Bool) : Except GearmanError (List Nat) :=
  match COMMAND_PARAMS cmd_type with
  | Option.none => .error (.protocolUnknownCommand cmd_type)
  | Option.some expected_cmd_params =>
    if (∀ p ∈ expected_cmd_params, p ∈ cmd_args.map Prod.fst) ∧
       (∀ k ∈ cmd_args.map Prod.fst, k ∈ expected_cmd_params) then
      match packItems cmd_args expected_cmd_params with
      | Option.none => .error .keyError
      | Option.some data_items =>
        let raw_binary_data := nulJoin data_items
        if raw_binary_data.length < 4294967296 then
          .ok ((if is_response then MAGIC_RES_STRING else MAGIC_REQ_STRING) ++
                be32 cmd_type ++ be32 raw_binary_data.length ++ raw_binary_data)
        else .error .structError
    else .error .assertArgumentMismatch

/-! ## Client job state machine (`gearman/client_handler.py`)

Python job-request objects are mutable and shared by reference between
the awaiting-handle deque and the handle map, so the handler state keeps
a `store : List GearmanJobRequest` of request objects and both indices
hold positions (`Nat` request ids) into it — the embedding of object
identity.  Each callback returns `Except (GearmanError × HandlerState)`:
on a raised exception the error carries the state as mutated up to the
point of the raise (Python does not roll back earlier mutations). -/

/-- The job states `JOB_UNKNOWN`, `JOB_PENDING`, `JOB_CREATED`,
`JOB_COMPLETE`, `JOB_FAILED` imported from `gearman.constants`. -/
inductive JobState : Type
  | unknown
  | pending
  | created
  | complete
  | failed
  deriving DecidableEq, Repr

/-- The three submit priorities named by the spec (normal / high / low). -/
inductive JobPriority : Type
  | normal
  | high
  | low
  deriving DecidableEq, Repr

structure GearmanJob : Type where
  task : List Nat
  unique : List Nat
  data : List Nat
  handle : Option (List Nat)
  deriving DecidableEq, Repr

/-- The `server_status` dict built by `recv_status_res`.  The Python
code stores `float(numerator)` / `float(denominator)`; numeric
conversion is outside every claim, so the raw wire tokens are kept. -/
structure ServerStatus : Type where
  handle : List Nat
  known : Bool
  running : Bool
  numerator : List Nat
  denominator : List Nat
  time_received : Nat
  deriving DecidableEq, Repr

/-- A `GearmanJobRequest` with every field the handler touches.  The
Python code stores `(float(numerator), float(denominator))` pairs in
`status_updates`; as above the raw tokens are kept. -/
structure GearmanJobRequest : Type where
  job : GearmanJob
  priority : JobPriority
  background : Bool
  state : JobState
  result : Option (List Nat)
  exception : Option (List Nat)
  data_updates : List (List Nat)
  warning_updates : List (List Nat)
  status_updates : List (List Nat × List Nat)
  server_status : Option ServerStatus
  deriving DecidableEq, Repr

instance : Inhabited GearmanJobRequest :=
  ⟨{ job := { task := [], unique := [], data := [], handle := Option.none },
     priority := .normal, background := false, state := .unknown,
     result := Option.none, exception := Option.none,
     data_updates := [], warning_updates := [], status_updates := [],
     server_status := Option.none }⟩

/-- `GearmanClientCommandHandler` state: `requests_awaiting_handles`
(deque, front first) and `handle_to_request_map`, both holding request
ids into `store`. -/
structure HandlerState : Type where
  store : List GearmanJobRequest
  requests_awaiting_handles : List Nat
  handle_to_request_map : List (List Nat × Nat)
  deriving DecidableEq, Repr

/-- Dereference a request id (Python attribute access on the shared
object; ids held by a reachable state are always in range). -/
def getReq (st : HandlerState) (rid : Nat) : GearmanJobRequest :=
  st.store.getD rid default

/-- Python dict assignment `m[k] = v`: overwrite in place when the key
exists, append otherwise. -/
def dictInsert (m : List (List Nat × Nat)) (k : List Nat) (v : Nat) :
    List (List Nat × Nat) :=
  if (alookup m k).isSome then m.map (fun e => if e.1 = k then (k, v) else e)
  else m ++ [(k, v)]

/-- In-place mutation `request.state = JOB_UNKNOWN` of the request at
`rid`, used by the connection-error loops. -/
def setStateUnknown (store : List GearmanJobRequest) (rid : Nat) :
    List GearmanJobRequest :=
  store.set rid { store.getD rid default with state := .unknown }

/-- Modelled from the spec: `submit_cmd_for_background_priority` is
imported from `gearman.protocol` but absent from it; the spec fixes the
outgoing command as the cross product {normal, high, low} × {foreground,
background} of the six submit variants. -/
def submit_cmd_for_background_priority (background : Bool)
    (priority : JobPriority) : Nat :=
  match background, priority with
  | false, .normal => GEARMAN_COMMAND_SUBMIT_JOB
  | false, .high => GEARMAN_COMMAND_SUBMIT_JOB_HIGH
  | false, .low => GEARMAN_COMMAND_SUBMIT_JOB_LOW
  | true, .normal => GEARMAN_COMMAND_SUBMIT_JOB_BG
  | true, .high => GEARMAN_COMMAND_SUBMIT_JOB_HIGH_BG
  | true, .low => GEARMAN_COMMAND_SUBMIT_JOB_LOW_BG

/-- Embeds `send_job_request(current_request)`.  `encode` is the
pluggable payload encoder (`self.encode_data`, identity by default per
the spec).  `send_command` itself lives in the absent
`gearman/command_handler.py`; modelled from the spec: "pack the command
via the Codec, hand bytes to the transport", so the packed frame is
returned and a pack failure propagates as the raised exception.  The
keyword arguments `task=`, `unique=`, `data=` are exactly the ones the
source passes on line 34. -/
def send_job_request (encode : List Nat → List Nat) (st : HandlerState)
    (rid : Nat) : Except (GearmanError × HandlerState) (HandlerState × List Nat) :=
  let current_request := getReq st rid
  if current_request.state ≠ .unknown then .error (.invalidClientState, st)
  else
    let cmd_type := submit_cmd_for_background_priority current_request.background
      current_request.priority
    let outbound_data := encode current_request.job.data
    match pack_command cmd_type
        [("task", .str current_request.job.task),
         ("unique", .str current_request.job.unique),
         ("data", .str outbound_data)] false with
    | .error e => .error (e, st)
    | .ok frame =>
      .ok ({ st with
             store := st.store.set rid { current_request with state := .pending },
             requests_awaiting_handles := st.requests_awaiting_handles ++ [rid] },
           frame)

/-- Embeds `on_connection_error`: both loops set every queued and every
mapped request's state back to `JOB_UNKNOWN`, touching nothing else. -/
def on_connection_error (st : HandlerState) : HandlerState :=
  { st with
    store := (st.handle_to_request_map.map Prod.snd).foldl setStateUnknown
      (st.requests_awaiting_handles.foldl setStateUnknown st.store) }

/-- Embeds `on_connection_lost`, which delegates to `on_connection_error`. -/
def on_connection_lost (st : HandlerState) : HandlerState :=
  on_connection_error st

/-- Embeds `recv_job_created(job_handle)`.  Note the deque is popped
before the PENDING assertion, so on that assertion failure the error
state has already lost the queue head. -/
def recv_job_created (st : HandlerState) (job_handle : List Nat) :
    Except (GearmanError × HandlerState) HandlerState :=
  match st.requests_awaiting_handles with
  | [] => .error (.invalidClientState, st)
  | rid :: rest =>
    let current_request := getReq st rid
    if current_request.state ≠ .pending then
      .error (.invalidClientState, { st with requests_awaiting_handles := rest })
    else
      .ok { st with
            store := st.store.set rid
              { current_request with
                job := { current_request.job with handle := some job_handle },
                state := .created },
            requests_awaiting_handles := rest,
            handle_to_request_map := dictInsert st.handle_to_request_map job_handle rid }

/-- Embeds `recv_work_data(job_handle, data)`; `decode` is the pluggable
payload decoder (`self.decode_data`). -/
def recv_work_data (decode : List Nat → List Nat) (st : HandlerState)
    (job_handle data : List Nat) : Except (GearmanError × HandlerState) HandlerState :=
  match alookup st.handle_to_request_map job_handle with
  | Option.none => .error (.keyError, st)
  | Option.some rid =>
    let current_request := getReq st rid
    if current_request.state ≠ .created then .error (.invalidClientState, st)
    else .ok { st with
               store := st.store.set rid
                 { current_request with
                   data_updates := current_request.data_updates ++ [decode data] } }

/-- Embeds `recv_work_warning(job_handle, data)`. -/
def recv_work_warning (decode : List Nat → List Nat) (st : HandlerState)
    (job_handle data : List Nat) : Except (GearmanError × HandlerState) HandlerState :=
  match alookup st.handle_to_request_map job_handle with
  | Option.none => .error (.keyError, st)
  | Option.some rid =>
    let current_request := getReq st rid
    if current_request.state ≠ .created then .error (.invalidClientState, st)
    else .ok { st with
               store := st.store.set rid
                 { current_request with
                   warning_updates := current_request.warning_updates ++ [decode data] } }

/-- Embeds `recv_work_status(job_handle, numerator, denominator)`; the
state assertion precedes the float conversion, which is kept as the raw
token pair. -/
def recv_work_status (st : HandlerState)
    (job_handle numerator denominator : List Nat) :
    Except (GearmanError × HandlerState) HandlerState :=
  match alookup st.handle_to_request_map job_handle with
  | Option.none => .error (.keyError, st)
  | Option.some rid =>
    let current_request := getReq st rid
    if current_request.state ≠ .created then .error (.invalidClientState, st)
    else .ok { st with
               store := st.store.set rid
                 { current_request with
                   status_updates := current_request.status_updates ++
                     [(numerator, denominator)] } }

/-- Embeds `recv_work_complete(job_handle, data)`. -/
def recv_work_complete (decode : List Nat → List Nat) (st : HandlerState)
    (job_handle data : List Nat) : Except (GearmanError × HandlerState) HandlerState :=
  match alookup st.handle_to_request_map job_handle with
  | Option.none => .error (.keyError, st)
  | Option.some rid =>
    let current_request := getReq st rid
    if current_request.state ≠ .created then .error (.invalidClientState, st)
    else .ok { st with
               store := st.store.set rid
                 { current_request with
                   result := some (decode data), state := .complete } }

/-- Embeds `recv_work_fail(job_handle)`. -/
def recv_work_fail (st : HandlerState) (job_handle : List Nat) :
    Except (GearmanError × HandlerState) HandlerState :=
  match alookup st.handle_to_request_map job_handle with
  | Option.none => .error (.keyError, st)
  | Option.some rid =>
    let current_request := getReq st rid
    if current_request.state ≠ .created then .error (.invalidClientState, st)
    else .ok { st with
               store := st.store.set rid { current_request with state := .failed } }

/-- Embeds `recv_work_exception(job_handle, data)`: stores the decoded
payload in `exception`; the state stays whatever it was (CREATED). -/
def recv_work_exception (decode : List Nat → List Nat) (st : HandlerState)
    (job_handle data : List Nat) : Except (GearmanError × HandlerState) HandlerState :=
  match alookup st.handle_to_request_map job_handle with
  | Option.none => .error (.keyError, st)
  | Option.some rid =>
    let current_request := getReq st rid
    if current_request.state ≠ .created then .error (.invalidClientState, st)
    else .ok { st with
               store := st.store.set rid
                 { current_request with exception := some (decode data) } }

/-- Embeds `recv_status_res(job_handle, known, running, numerator,
denominator)`; `now` stands for the external `time.time()` reading, and
`known` / `running` are compared against the literal `"1"` (byte 49). -/
def recv_status_res (st : HandlerState)
    (job_handle known running numerator denominator : List Nat) (now : Nat) :
    Except (GearmanError × HandlerState) HandlerState :=
  match alookup st.handle_to_request_map job_handle with
  | Option.none => .error (.keyError, st)
  | Option.some rid =>
    let current_request := getReq st rid
    if current_request.state ≠ .created then .error (.invalidClientState, st)
    else .ok { st with
               store := st.store.set rid
                 { current_request with
                   server_status := some
                     { handle := job_handle,
                       known := decide (known = [49]),
                       running := decide (running = [49]),
                       numerator := numerator,
                       denominator := denominator,
                       time_received := now } } }

/-! ## Supporting lemmas -/

theorem length_be32 (n : Nat) : (be32 n).length = 4 := rfl

theorem beUint32_be32 {n : Nat} (h : n < 4294967296) : beUint32 (be32 n) = n := by
  simp only [be32, beUint32]
  omega

theorem takeWhile_ne_zero_append {v t : List Nat} (h : 0 ∉ v) :
    (v ++ 0 :: t).takeWhile (· != 0) = v := by
  induction v with
  | nil => simp
  | cons a v ih =>
    have ha : a ≠ 0 := fun hh => h (hh ▸ List.mem_cons_self a v)
    have hv : 0 ∉ v := fun hm => h (List.mem_cons_of_mem _ hm)
    simp only [List.cons_append, List.takeWhile_cons]
    simp [ha, ih hv]

theorem drop_len_succ_append (v t : List Nat) :
    (v ++ 0 :: t).drop (v.length + 1) = t := by
  rw [← List.drop_drop, List.drop_left]
  rfl

theorem splitNul_nulJoin : ∀ (vals : List (List Nat)), vals ≠ [] →
    (∀ v ∈ vals.dropLast, 0 ∉ v) →
    splitNul (nulJoin vals) (vals.length - 1) = vals
  | [], h, _ => absurd rfl h
  | [v], _, _ => by simp [nulJoin, splitNul]
  | v :: w :: vs, _, hnul => by
    have hv : 0 ∉ v := hnul v (by
      rw [List.dropLast_cons_of_ne_nil (by simp)]
      exact List.mem_cons_self _ _)
    have ih := splitNul_nulJoin (w :: vs) (by simp) (fun u hu => hnul u (by
      rw [List.dropLast_cons_of_ne_nil (by simp)]
      exact List.mem_cons_of_mem _ hu))
    show splitNul (v ++ 0 :: nulJoin (w :: vs)) ((v :: w :: vs).length - 1) = v :: w :: vs
    have hlen : (v :: w :: vs).length - 1 = ((w :: vs).length - 1) + 1 := by simp
    rw [hlen]
    simp only [splitNul, if_pos (show 0 ∈ v ++ 0 :: nulJoin (w :: vs) by simp)]
    rw [takeWhile_ne_zero_append hv, drop_len_succ_append, ih]

theorem mem_decomp_takeWhile {s : List Nat} (h : 0 ∈ s) :
    s = s.takeWhile (· != 0) ++ 0 :: s.drop ((s.takeWhile (· != 0)).length + 1) := by
  induction s with
  | nil => cases h
  | cons a s ih =>
    by_cases ha : a = 0
    · subst ha; simp
    · have h0 : 0 ∈ s := by
        rcases List.mem_cons.mp h with h1 | h1
        · exact absurd h1.symm ha
        · exact h1
      simp only [List.takeWhile_cons]
      rw [if_pos (by simpa using ha)]
      simpa using ih h0

theorem splitNul_length_le : ∀ (m : Nat) (s : List Nat),
    (splitNul s m).length ≤ s.count 0 + 1
  | 0, s => by simp [splitNul]
  | m + 1, s => by
    by_cases h : 0 ∈ s
    · have hd := mem_decomp_takeWhile h
      have hc : s.count 0 =
          (s.takeWhile (· != 0)).count 0 +
            ((s.drop ((s.takeWhile (· != 0)).length + 1)).count 0 + 1) := by
        conv_lhs => rw [hd]
        simp [List.count_append, List.count_cons]
      have ih := splitNul_length_le m (s.drop ((s.takeWhile (· != 0)).length + 1))
      simp only [splitNul, if_pos h, List.length_cons]
      omega
    · simp [splitNul, h]

theorem alookup_mem {α β : Type} [DecidableEq α] :
    ∀ {l : List (α × β)} {k : α} {v : β}, alookup l k = some v → (k, v) ∈ l
  | [], _, _, h => by simp [alookup] at h
  | e :: rest, k, v, h => by
    by_cases he : e.1 = k
    · simp only [alookup, if_pos he, Option.some.injEq] at h
      subst he; subst h
      exact List.mem_cons_self _ _
    · simp only [alookup, if_neg he] at h
      exact List.mem_cons_of_mem _ (alookup_mem h)

theorem alookup_cons_ne {α β : Type} [DecidableEq α] {p k : α} {x : β}
    {l : List (α × β)} (h : p ≠ k) : alookup ((p, x) :: l) k = alookup l k := by
  simp [alookup, h]

theorem COMMAND_PARAMS_nodup {ct : Nat} {ps : List String}
    (h : COMMAND_PARAMS ct = some ps) : ps.Nodup := by
  have hall : ∀ e ∈ COMMAND_PARAMS_LIST, e.2.Nodup := by decide
  exact hall _ (alookup_mem h)

theorem COMMAND_PARAMS_lt {ct : Nat} {ps : List String}
    (h : COMMAND_PARAMS ct = some ps) : ct < 4294967296 := by
  have hall : ∀ e ∈ COMMAND_PARAMS_LIST, e.1 < 4294967296 := by decide
  exact hall _ (alookup_mem h)

theorem pyStr_pyOrEmptyStr_str (v : List Nat) :
    pyStr (pyOrEmptyStr (.str v)) = v := by
  cases v <;> simp [pyOrEmptyStr, pyTruthy, pyStr]

theorem packItems_cons_ne {p : String} {x : PyValue} {args : List (String × PyValue)} :
    ∀ {ps : List String}, p ∉ ps → packItems ((p, x) :: args) ps = packItems args ps
  | [], _ => rfl
  | q :: ps, h => by
    have hqp : p ≠ q := fun hh => h (hh ▸ List.mem_cons_self q ps)
    have hps : p ∉ ps := fun hm => h (List.mem_cons_of_mem _ hm)
    simp only [packItems, alookup_cons_ne hqp, packItems_cons_ne hps]

theorem packItems_zip : ∀ {params : List String} {vals : List (List Nat)},
    params.Nodup → vals.length = params.length →
    packItems (params.zip (vals.map PyValue.str)) params = some vals
  | [], [], _, _ => rfl
  | [], _ :: _, _, h => by simp at h
  | _ :: _, [], _, h => by simp at h
  | p :: ps, v :: vs, hnd, hlen => by
    have hnd' := List.nodup_cons.mp hnd
    have ih := packItems_zip hnd'.2 (by simpa using hlen)
    simp only [List.map_cons, List.zip_cons_cons, packItems]
    rw [show alookup ((p, PyValue.str v) :: ps.zip (vs.map PyValue.str)) p =
          some (PyValue.str v) by simp [alookup]]
    rw [packItems_cons_ne hnd'.1, ih]
    simp [pyStr_pyOrEmptyStr_str]

theorem pack_command_ok {ct : Nat} {params : List String} {vals : List (List Nat)}
    {d : Bool} (hct : COMMAND_PARAMS ct = some params)
    (hlen : vals.length = params.length)
    (hsize : (nulJoin vals).length < 4294967296) :
    pack_command ct (params.zip (vals.map PyValue.str)) d =
      .ok ((if d then MAGIC_RES_STRING else MAGIC_REQ_STRING) ++
        be32 ct ++ be32 (nulJoin vals).length ++ nulJoin vals) := by
  have hnd := COMMAND_PARAMS_nodup hct
  have hkeys : (params.zip (vals.map PyValue.str)).map Prod.fst = params :=
    List.map_fst_zip _ _ (by simp [hlen])
  simp only [pack_command, hct]
  rw [if_pos (by constructor <;> intro x hx <;> simpa [hkeys] using hx)]
  rw [packItems_zip hnd hlen]
  simp only [if_pos hsize]

theorem parse_frame {d : Bool} {ct : Nat} {params : List String}
    (payload rest : List Nat) (hct : COMMAND_PARAMS ct = some params)
    (hsize : payload.length < 4294967296) :
    parse_command ((if d then MAGIC_RES_STRING else MAGIC_REQ_STRING) ++
        be32 ct ++ be32 payload.length ++ (payload ++ rest)) d =
      (if (if 0 < params.length then splitNul payload (params.length - 1)
            else []).length ≠ params.length then
        .error (.protocolWrongArgCount ct)
      else
        .ok (.command ct
          (params.zip (if 0 < params.length then splitNul payload (params.length - 1)
            else []))
          (COMMAND_HEADER_SIZE + payload.length))) := by
  set M := if d then MAGIC_RES_STRING else MAGIC_REQ_STRING with hMdef
  have hM : M.length = 4 := by cases d <;> rfl
  set B := M ++ be32 ct ++ be32 payload.length ++ (payload ++ rest) with hBdef
  have hassoc : B = M ++ (be32 ct ++ (be32 payload.length ++ (payload ++ rest))) := by
    simp [hBdef, List.append_assoc]
  have hlenB : B.length = 12 + (payload.length + rest.length) := by
    rw [hassoc]
    simp [List.length_append, hM, length_be32]
    omega
  have htake : B.take 4 = M := by rw [hassoc]; exact List.take_left' hM
  have hdrop4 : B.drop 4 = be32 ct ++ (be32 payload.length ++ (payload ++ rest)) := by
    rw [hassoc]; exact List.drop_left' hM
  have hdrop8 : B.drop 8 = be32 payload.length ++ (payload ++ rest) := by
    have h8 : B.drop 8 = (B.drop 4).drop 4 := by rw [List.drop_drop]
    rw [h8, hdrop4]; exact List.drop_left' rfl
  have hdrop12 : B.drop 12 = payload ++ rest := by
    have h12 : B.drop 12 = (B.drop 8).drop 4 := by rw [List.drop_drop]
    rw [h12, hdrop8]; exact List.drop_left' rfl
  have hcmdty : beUint32 ((B.drop 4).take 4) = ct := by
    rw [hdrop4, List.take_left' (length_be32 ct), beUint32_be32 (COMMAND_PARAMS_lt hct)]
  have hcmdlen : beUint32 ((B.drop 8).take 4) = payload.length := by
    rw [hdrop8, List.take_left' (length_be32 payload.length), beUint32_be32 hsize]
  have hpayload : (B.drop COMMAND_HEADER_SIZE).take payload.length = payload := by
    show (B.drop 12).take payload.length = payload
    rw [hdrop12]; exact List.take_left _ _
  simp only [parse_command, COMMAND_HEADER_SIZE] at *
  rw [if_neg (by omega), if_pos (by omega), htake, if_pos rfl, hcmdlen,
    if_neg (by omega), hcmdty, hct, hpayload]

theorem pyOrEmptyStr_coerce (v : PyValue) :
    pyOrEmptyStr (if pyTruthy v then v else .str []) = pyOrEmptyStr v := by
  by_cases h : pyTruthy v
  · rw [if_pos h]
  · rw [if_neg h]
    unfold pyOrEmptyStr
    rw [if_neg (by decide), if_neg h]

theorem alookup_map_snd {α β γ : Type} [DecidableEq α] (g : β → γ) :
    ∀ (l : List (α × β)) (k : α),
      alookup (l.map (fun e => (e.1, g e.2))) k = (alookup l k).map g
  | [], _ => rfl
  | e :: rest, k => by
    by_cases he : e.1 = k <;> simp [alookup, he, alookup_map_snd g rest k]

theorem map_fst_map_snd {α β γ : Type} (g : β → γ) (l : List (α × β)) :
    (l.map (fun e => (e.1, g e.2))).map Prod.fst = l.map Prod.fst := by
  induction l <;> simp [*]

theorem packItems_map_coerce :
    ∀ (ps : List String) (args : List (String × PyValue)),
      packItems (args.map (fun e => (e.1, if pyTruthy e.2 then e.2 else PyValue.str []))) ps =
        packItems args ps
  | [], _ => rfl
  | p :: ps, args => by
    rw [packItems, packItems,
      alookup_map_snd (fun v => if pyTruthy v then v else PyValue.str []) args p,
      packItems_map_coerce ps args]
    cases alookup args p with
    | none => rfl
    | some v => cases packItems args ps <;> simp [pyOrEmptyStr_coerce]

/-! ## Claims about the codec -/

/-- C1: for every command type in the table and every assignment of one
byte-string value per field — NUL-free except possibly in the final
field, with the joined payload fitting the 32-bit length header —
parsing the bytes produced by `pack_command` with the matching direction
flag yields a complete command with the same type, the same
field-name-to-value mapping, and consumed length `12 + payload length`
(the full frame length). -/
theorem round_trip_pack_parse {ct : Nat} {params : List String}
    {vals : List (List Nat)} {d : Bool}
    (hct : COMMAND_PARAMS ct = some params)
    (hlen : vals.length = params.length)
    (hnul : ∀ v ∈ vals.dropLast, 0 ∉ v)
    (hsize : (nulJoin vals).length < 4294967296) :
    ∃ frame, pack_command ct (params.zip (vals.map PyValue.str)) d = .ok frame ∧
      parse_command frame d = .ok (.command ct (params.zip vals) frame.length) ∧
      frame.length = COMMAND_HEADER_SIZE + (nulJoin vals).length := by
  have hflen : ((if d then MAGIC_RES_STRING else MAGIC_REQ_STRING) ++
      be32 ct ++ be32 (nulJoin vals).length ++ nulJoin vals).length =
      COMMAND_HEADER_SIZE + (nulJoin vals).length := by
    cases d <;> simp [List.length_append, length_be32, MAGIC_RES_STRING,
      MAGIC_REQ_STRING, COMMAND_HEADER_SIZE] <;> omega
  refine ⟨_, pack_command_ok hct hlen hsize, ?_, hflen⟩
  have hframe : (if d then MAGIC_RES_STRING else MAGIC_REQ_STRING) ++
      be32 ct ++ be32 (nulJoin vals).length ++ nulJoin vals =
      (if d then MAGIC_RES_STRING else MAGIC_REQ_STRING) ++
      be32 ct ++ be32 (nulJoin vals).length ++ (nulJoin vals ++ []) := by simp
  rw [hflen, hframe, parse_frame (nulJoin vals) [] hct hsize]
  by_cases hN : 0 < params.length
  · have hvne : vals ≠ [] := by
      intro h
      rw [h] at hlen
      simp at hlen
      omega
    have hsplit : splitNul (nulJoin vals) (params.length - 1) = vals := by
      rw [← hlen]
      exact splitNul_nulJoin vals hvne hnul
    rw [if_pos hN, hsplit, if_neg (by omega)]
  · have hp : params = [] := List.length_eq_zero.mp (by omega)
    have hv : vals = [] := List.length_eq_zero.mp (by omega)
    subst hp; subst hv
    simp

theorem round_trip_pack_parse_witness :
    ∃ frame,
      pack_command GEARMAN_COMMAND_SUBMIT_JOB
        (["func", "unique", "data"].zip
          ([[114, 101, 118], [117, 49], [104, 0, 105]].map PyValue.str)) false =
        .ok frame ∧
      parse_command frame false =
        .ok (.command GEARMAN_COMMAND_SUBMIT_JOB
          (["func", "unique", "data"].zip [[114, 101, 118], [117, 49], [104, 0, 105]])
          frame.length) ∧
      frame.length =
        COMMAND_HEADER_SIZE + (nulJoin [[114, 101, 118], [117, 49], [104, 0, 105]]).length :=
  @round_trip_pack_parse GEARMAN_COMMAND_SUBMIT_JOB ["func", "unique", "data"]
    [[114, 101, 118], [117, 49], [104, 0, 105]] false
    (by decide) (by decide) (by decide) (by decide)

/-- C2 (code behaviour at the failing input): a complete `JOB_CREATED`
response frame decodes in one full-buffer call, but its one-byte prefix
`"\x00"` — the state of the accumulated buffer after the first byte when
the same frame is fed one byte at a time — makes `parse_command` raise
`ProtocolError("Malformed Magic")` instead of reporting insufficient
data, and so does its eleven-byte prefix.  The incremental feed
therefore errors where the full feed succeeds. -/
theorem streaming_prefix_raises :
    parse_command (MAGIC_RES_STRING ++ be32 GEARMAN_COMMAND_JOB_CREATED ++
        be32 3 ++ [72, 58, 49]) true =
      .ok (.command GEARMAN_COMMAND_JOB_CREATED [("handle", [72, 58, 49])] 15) ∧
    (MAGIC_RES_STRING ++ be32 GEARMAN_COMMAND_JOB_CREATED ++
        be32 3 ++ [72, 58, 49]).take 1 = [0] ∧
    parse_command [0] true = .error .protocolMalformedMagic ∧
    parse_command ((MAGIC_RES_STRING ++ be32 GEARMAN_COMMAND_JOB_CREATED ++
        be32 3 ++ [72, 58, 49]).take 11) true = .error .protocolMalformedMagic := by
  decide

/-- C6: for a complete frame of a known type with `N ≥ 1` fields, the
payload is split by exactly `N - 1` NUL-delimited splits from the front
— so the final field receives the entire unsplit remainder, NUL bytes
included, and the `N` field names are zipped to the `N` pieces in
field-list order — and when the payload holds fewer than `N - 1` NUL
bytes (so the split yields fewer than `N` pieces), parsing fails with
the wrong-argument-count protocol error. -/
theorem parse_payload_split {d : Bool} {ct : Nat} {params : List String}
    (payload rest : List Nat)
    (hct : COMMAND_PARAMS ct = some params)
    (hN : 0 < params.length)
    (hsize : payload.length < 4294967296) :
    (∀ pieces : List (List Nat), payload = nulJoin pieces →
      pieces.length = params.length → (∀ v ∈ pieces.dropLast, 0 ∉ v) →
      parse_command ((if d then MAGIC_RES_STRING else MAGIC_REQ_STRING) ++
          be32 ct ++ be32 payload.length ++ (payload ++ rest)) d =
        .ok (.command ct (params.zip pieces) (COMMAND_HEADER_SIZE + payload.length))) ∧
    (payload.count 0 + 1 < params.length →
      parse_command ((if d then MAGIC_RES_STRING else MAGIC_REQ_STRING) ++
          be32 ct ++ be32 payload.length ++ (payload ++ rest)) d =
        .error (.protocolWrongArgCount ct)) := by
  constructor
  · intro pieces hp hplen hnul
    rw [parse_frame payload rest hct hsize]
    have hpne : pieces ≠ [] := by
      intro h
      rw [h] at hplen
      simp at hplen
      omega
    have hsplit : splitNul payload (params.length - 1) = pieces := by
      rw [hp, ← hplen]
      exact splitNul_nulJoin pieces hpne hnul
    rw [if_pos hN, hsplit, if_neg (by omega)]
  · intro hcount
    rw [parse_frame payload rest hct hsize]
    have hle := splitNul_length_le (params.length - 1) payload
    rw [if_pos hN, if_pos (by omega)]

theorem parse_payload_split_witness :
    parse_command (MAGIC_RES_STRING ++ be32 GEARMAN_COMMAND_WORK_COMPLETE ++
        be32 (7 : Nat) ++ ([72, 58, 49, 0, 111, 0, 104] ++ [])) true =
      .ok (.command GEARMAN_COMMAND_WORK_COMPLETE
        (["handle", "data"].zip [[72, 58, 49], [111, 0, 104]])
        (COMMAND_HEADER_SIZE + 7)) ∧
    parse_command (MAGIC_RES_STRING ++ be32 GEARMAN_COMMAND_WORK_COMPLETE ++
        be32 (2 : Nat) ++ ([65, 66] ++ [])) true =
      .error (.protocolWrongArgCount GEARMAN_COMMAND_WORK_COMPLETE) := by
  constructor
  · exact (@parse_payload_split true GEARMAN_COMMAND_WORK_COMPLETE
      ["handle", "data"] [72, 58, 49, 0, 111, 0, 104] []
      (by decide) (by decide) (by decide)).1
      [[72, 58, 49], [111, 0, 104]] (by decide) (by decide) (by decide)
  · exact (@parse_payload_split true GEARMAN_COMMAND_WORK_COMPLETE
      ["handle", "data"] [65, 66] []
      (by decide) (by decide) (by decide)).2 (by decide)

/-- C7: on a buffer of at least 12 bytes whose leading 4 bytes are the
expected magic for the direction but whose total length is below
12 + declared payload length, `parse_command` reports `NoData` with
consumed length 0 and raises nothing; being a pure function of the
buffer, calling it again on the same buffer returns the same result. -/
theorem parse_incomplete_noData {databuffer : List Nat} {d : Bool}
    (h12 : COMMAND_HEADER_SIZE ≤ databuffer.length)
    (hm : databuffer.take 4 = (if d then MAGIC_RES_STRING else MAGIC_REQ_STRING))
    (hlen : databuffer.length <
      COMMAND_HEADER_SIZE + beUint32 ((databuffer.drop 8).take 4)) :
    parse_command databuffer d = .ok .noData ∧
      parse_command databuffer d = parse_command databuffer d := by
  refine ⟨?_, rfl⟩
  simp only [COMMAND_HEADER_SIZE] at h12 hlen
  simp only [parse_command, COMMAND_HEADER_SIZE]
  rw [if_neg (by omega), if_pos h12, hm, if_pos rfl, if_pos hlen]

theorem parse_incomplete_noData_witness :
    parse_command [0, 82, 69, 83, 0, 0, 0, 7, 0, 0, 0, 5] true = .ok .noData :=
  (@parse_incomplete_noData [0, 82, 69, 83, 0, 0, 0, 7, 0, 0, 0, 5] true
    (by decide) (by decide) (by decide)).1

/-- C10: in `pack_command`, every falsy argument value — `None`, the
empty string, numeric zero, `False` — is coerced to the empty string
before the NUL-join (replacing falsy values by the empty string never
changes the output), and concretely a field holding the integer `0`
packs as an empty field (payload length 0) although `str(0)` would be
the byte `"0"` (48). -/
theorem pack_falsy_coerced_to_empty :
    (∀ (ct : Nat) (args : List (String × PyValue)) (d : Bool),
      pack_command ct args d =
        pack_command ct
          (args.map (fun e => (e.1, if pyTruthy e.2 then e.2 else PyValue.str []))) d) ∧
    pack_command GEARMAN_COMMAND_ECHO_REQ [("text", PyValue.int 0)] false =
      .ok (MAGIC_REQ_STRING ++ be32 GEARMAN_COMMAND_ECHO_REQ ++ be32 0 ++ []) ∧
    pyStr (PyValue.int 0) = [48] := by
  refine ⟨?_, by decide, by decide⟩
  intro ct args d
  cases hct : COMMAND_PARAMS ct with
  | none => simp [pack_command, hct]
  | some params =>
    simp only [pack_command, hct,
      map_fst_map_snd (fun v => if pyTruthy v then v else PyValue.str []) args,
      packItems_map_coerce]

/-! ## Supporting lemmas for the state machine -/

theorem getReq_eq {st : HandlerState} {rid : Nat} {req : GearmanJobRequest}
    (hreq : st.store[rid]? = some req) : getReq st rid = req := by
  rw [getReq, List.getD_eq_getElem?_getD, hreq]
  rfl

theorem setStateUnknown_getElem? (store : List GearmanJobRequest) (rid i : Nat) :
    (setStateUnknown store rid)[i]? =
      if rid = i then (store[i]?).map (fun q => { q with state := .unknown })
      else store[i]? := by
  rw [setStateUnknown, List.getElem?_set]
  by_cases h : rid = i
  · subst h
    rw [if_pos rfl, if_pos rfl]
    by_cases hlt : rid < store.length
    · rw [if_pos hlt, List.getD_eq_getElem?_getD]
      cases hgi : store[rid]? with
      | none =>
        rw [List.getElem?_eq_none_iff] at hgi
        omega
      | some q => simp [hgi]
    · rw [if_neg hlt]
      have hn : store[rid]? = Option.none := by
        rw [List.getElem?_eq_none_iff]
        omega
      simp [hn]
  · rw [if_neg h, if_neg h]

theorem foldl_setStateUnknown_getElem? :
    ∀ (l : List Nat) (store : List GearmanJobRequest) (i : Nat),
      (l.foldl setStateUnknown store)[i]? =
        (store[i]?).map (fun q => if i ∈ l then { q with state := .unknown } else q)
  | [], store, i => by
    rw [List.foldl_nil]
    cases hsi : store[i]? <;> simp [hsi]
  | a :: l, store, i => by
    rw [List.foldl_cons, foldl_setStateUnknown_getElem? l (setStateUnknown store a) i,
      setStateUnknown_getElem?]
    by_cases hai : a = i
    · subst hai
      rw [if_pos rfl]
      cases store[a]? with
      | none => rfl
      | some q => by_cases hl : a ∈ l <;> simp [hl]
    · rw [if_neg hai]
      cases store[i]? with
      | none => rfl
      | some q => by_cases hl : i ∈ l <;> simp [hl, Ne.symm hai]

/-! ## Claims about the state machine -/

/-- Request id 0 with task `"reverse"`, unique `"u1"`, data `"hello"`,
no handle yet, in the given state, with empty logs. -/
def sampleRequest (s : JobState) : GearmanJobRequest :=
  { job := { task := [114, 101, 118, 101, 114, 115, 101], unique := [117, 49],
             data := [104, 101, 108, 108, 111], handle := Option.none },
    priority := .normal, background := false, state := s,
    result := Option.none, exception := Option.none,
    data_updates := [], warning_updates := [], status_updates := [],
    server_status := Option.none }

/-- A fresh handler holding one yet-unsubmitted request. -/
def submitState : HandlerState :=
  { store := [sampleRequest .unknown],
    requests_awaiting_handles := [],
    handle_to_request_map := [] }

/-- A handler whose only request is COMPLETE, indexed under handle
`"H:1"`, with no request awaiting a handle. -/
def guardState : HandlerState :=
  { store := [sampleRequest .complete],
    requests_awaiting_handles := [],
    handle_to_request_map := [([72, 58, 49], 0)] }

/-- C3 (code behaviour at the failing input): for the concrete fresh
normal-priority foreground request (task `"reverse"`, unique `"u1"`,
data `"hello"`, state UNKNOWN), `send_job_request` does not emit a
`SUBMIT_JOB` frame: the keyword arguments it supplies are named `task`,
`unique`, `data` (client_handler.py line 34) while the command table's
field list for `SUBMIT_JOB` is `func`, `unique`, `data`, so
`pack_command`'s argument-set assertion fails and the state machine is
left unchanged. -/
theorem send_job_request_argument_mismatch :
    send_job_request (fun b => b) submitState 0 =
      .error (.assertArgumentMismatch, submitState) ∧
    (getReq submitState 0).state = .unknown ∧
    (getReq submitState 0).priority = .normal ∧
    (getReq submitState 0).background = false ∧
    COMMAND_PARAMS GEARMAN_COMMAND_SUBMIT_JOB = some ["func", "unique", "data"] := by
  decide

/-- C4 (code behaviour at the failing input): the FIFO-correlation
scenario already fails at N = 1.  The single submission aborts inside
`pack_command` (`task` vs `func` argument names) before the request is
set to PENDING or queued, so the following `recv_job_created` with
handle `"H:1"` raises `InvalidClientState` on an empty awaiting-handle
queue, and the submitted request ends without the handle, not in state
CREATED, and is not indexed in the handle map. -/
theorem fifo_correlation_broken :
    send_job_request (fun b => b) submitState 0 =
      .error (.assertArgumentMismatch, submitState) ∧
    recv_job_created submitState [72, 58, 49] = .error (.invalidClientState, submitState) ∧
    (getReq submitState 0).state ≠ .created ∧
    (getReq submitState 0).job.handle = Option.none ∧
    alookup submitState.handle_to_request_map [72, 58, 49] = Option.none := by
  decide

/-- C5: every work-event callback invoked for a handle whose mapped
request is not in state CREATED raises `InvalidClientState` with the
whole handler state — in particular the request — unmodified, and
`recv_job_created` with an empty awaiting-handle queue raises
`InvalidClientState` likewise without modification. -/
theorem state_guard (decode : List Nat → List Nat)
    (data numerator denominator known running : List Nat) (t : Nat)
    {st : HandlerState} {h : List Nat} {rid : Nat} {req : GearmanJobRequest}
    (hmap : alookup st.handle_to_request_map h = some rid)
    (hreq : st.store[rid]? = some req)
    (hstate : req.state ≠ .created) :
    recv_work_data decode st h data = .error (.invalidClientState, st) ∧
    recv_work_warning decode st h data = .error (.invalidClientState, st) ∧
    recv_work_status st h numerator denominator = .error (.invalidClientState, st) ∧
    recv_work_complete decode st h data = .error (.invalidClientState, st) ∧
    recv_work_fail st h = .error (.invalidClientState, st) ∧
    recv_work_exception decode st h data = .error (.invalidClientState, st) ∧
    recv_status_res st h known running numerator denominator t =
      .error (.invalidClientState, st) ∧
    (∀ st2 : HandlerState, st2.requests_awaiting_handles = [] →
      recv_job_created st2 h = .error (.invalidClientState, st2)) := by
  have hget := getReq_eq hreq
  refine ⟨?_, ?_, ?_, ?_, ?_, ?_, ?_, ?_⟩
  · simp only [recv_work_data, hmap, hget]
    rw [if_pos hstate]
  · simp only [recv_work_warning, hmap, hget]
    rw [if_pos hstate]
  · simp only [recv_work_status, hmap, hget]
    rw [if_pos hstate]
  · simp only [recv_work_complete, hmap, hget]
    rw [if_pos hstate]
  · simp only [recv_work_fail, hmap, hget]
    rw [if_pos hstate]
  · simp only [recv_work_exception, hmap, hget]
    rw [if_pos hstate]
  · simp only [recv_status_res, hmap, hget]
    rw [if_pos hstate]
  · intro st2 hq
    simp only [recv_job_created, hq]

theorem state_guard_witness :
    recv_work_data (fun b => b) guardState [72, 58, 49] [100] =
      .error (.invalidClientState, guardState) ∧
    recv_work_warning (fun b => b) guardState [72, 58, 49] [100] =
      .error (.invalidClientState, guardState) ∧
    recv_work_status guardState [72, 58, 49] [49] [50] =
      .error (.invalidClientState, guardState) ∧
    recv_work_complete (fun b => b) guardState [72, 58, 49] [100] =
      .error (.invalidClientState, guardState) ∧
    recv_work_fail guardState [72, 58, 49] =
      .error (.invalidClientState, guardState) ∧
    recv_work_exception (fun b => b) guardState [72, 58, 49] [100] =
      .error (.invalidClientState, guardState) ∧
    recv_status_res guardState [72, 58, 49] [49] [49] [49] [50] 99 =
      .error (.invalidClientState, guardState) ∧
    recv_job_created guardState [72, 58, 49] =
      .error (.invalidClientState, guardState) := by
  have hh := @state_guard (fun b => b) [100] [49] [50] [49] [49] 99
    guardState [72, 58, 49] 0 (sampleRequest .complete)
    (by decide) (by decide) (by decide)
  exact ⟨hh.1, hh.2.1, hh.2.2.1, hh.2.2.2.1, hh.2.2.2.2.1, hh.2.2.2.2.2.1,
    hh.2.2.2.2.2.2.1, hh.2.2.2.2.2.2.2 guardState rfl⟩

/-- C8: the connection-lost callback delegates to the connection-error
callback, which sets the state of every request in the awaiting-handle
queue and of every request in the handle map to UNKNOWN while leaving
the queue (contents and order), the map entries, every other field of
every request, and every unreferenced request untouched. -/
theorem on_connection_error_resets_states (st : HandlerState) :
    on_connection_lost st = on_connection_error st ∧
    (on_connection_error st).requests_awaiting_handles =
      st.requests_awaiting_handles ∧
    (on_connection_error st).handle_to_request_map = st.handle_to_request_map ∧
    ∀ i : Nat, (on_connection_error st).store[i]? =
      (st.store[i]?).map (fun q =>
        if i ∈ st.requests_awaiting_handles ∨
           i ∈ st.handle_to_request_map.map Prod.snd
        then { q with state := .unknown } else q) := by
  refine ⟨rfl, rfl, rfl, fun i => ?_⟩
  show ((st.handle_to_request_map.map Prod.snd).foldl setStateUnknown
    (st.requests_awaiting_handles.foldl setStateUnknown st.store))[i]? = _
  rw [foldl_setStateUnknown_getElem?, foldl_setStateUnknown_getElem?]
  cases st.store[i]? with
  | none => rfl
  | some q =>
    by_cases h1 : i ∈ st.requests_awaiting_handles <;>
      by_cases h2 : i ∈ st.handle_to_request_map.map Prod.snd <;>
      simp [h1, h2]

/-- C9: for a CREATED request indexed in the handle map,
`recv_work_exception` stores the decoded event data as the request's
exception payload and changes nothing else — the resulting state is the
old one with only that request's `exception` field replaced, so its
state stays CREATED and its result and logs, the queue and the map are
untouched. -/
theorem recv_work_exception_stores_only_exception
    (decode : List Nat → List Nat) (d : List Nat)
    {st : HandlerState} {h : List Nat} {rid : Nat} {req : GearmanJobRequest}
    (hmap : alookup st.handle_to_request_map h = some rid)
    (hreq : st.store[rid]? = some req)
    (hstate : req.state = .created) :
    recv_work_exception decode st h d =
      .ok { st with
            store := st.store.set rid { req with exception := some (decode d) } } ∧
    ({ req with exception := some (decode d) } : GearmanJobRequest).state = .created := by
  have hget := getReq_eq hreq
  refine ⟨?_, hstate⟩
  simp only [recv_work_exception, hmap, hget]
  rw [if_neg (by simp [hstate])]

theorem recv_work_exception_stores_only_exception_witness :
    recv_work_exception (fun b => b)
      { store := [sampleRequest .created],
        requests_awaiting_handles := [],
        handle_to_request_map := [([72, 58, 49], 0)] } [72, 58, 49] [101, 120] =
      .ok { store := [{ (sampleRequest .created) with exception := some [101, 120] }],
            requests_awaiting_handles := [],
            handle_to_request_map := [([72, 58, 49], 0)] } :=
  ((@recv_work_exception_stores_only_exception (fun b => b) [101, 120]
    { store := [sampleRequest .created],
      requests_awaiting_handles := [],
      handle_to_request_map := [([72, 58, 49], 0)] } [72, 58, 49] 0
    (sampleRequest .created) (by decide) (by decide) (by decide)).1)

end Gearman
